import Mathlib

/-!
Shallow embedding of the `rtt-console` repository (src/main.rs, src/session.rs):
a terminal bridge to an RTT byte stream on a microcontroller.  Rust strings are
modelled as `List Char`; Rust `u16` values as `Nat` with the 16-bit bound
enforced where the source enforces it (`u16::from_str_radix`); fallible Rust
code as `Except`/`Option`; external effects (probe enumeration, probe open,
attach, channel reads/writes, terminal events) as explicit oracle parameters.
-/

set_option linter.unusedVariables false

namespace RttConsole

/-- Strings are modelled as lists of characters. -/
abbrev Str := List Char

/-- Embedding of Rust `str::split(':')` (session.rs, `from_str`): splits at every
colon; the empty string yields one empty part, and a trailing or leading colon
yields an empty part on that side. -/
def splitColon : Str → List Str
  | [] => [[]]
  | c :: rest =>
    if c = ':' then [] :: splitColon rest
    else
      match splitColon rest with
      | [] => [[c]]
      | p :: ps => (c :: p) :: ps

/-- Value of one hexadecimal digit, as in Rust `char::to_digit(16)` used by
`u16::from_str_radix`. -/
def hexDigitVal (c : Char) : Option Nat :=
  let n := c.toNat
  if 48 ≤ n ∧ n ≤ 57 then some (n - 48)
  else if 97 ≤ n ∧ n ≤ 102 then some (n - 97 + 10)
  else if 65 ≤ n ∧ n ≤ 70 then some (n - 65 + 10)
  else none

/-- Digit-by-digit accumulation of `u16::from_str_radix(_, 16)`: each step is
`acc * 16 + digit`, failing (Rust `InvalidDigit`) on a non-hex character and
(Rust `PosOverflow`) as soon as the accumulator leaves the `u16` range. -/
def parseHexNat : Str → Nat → Option Nat
  | [], acc => some acc
  | c :: rest, acc =>
    match hexDigitVal c with
    | none => none
    | some d =>
      let acc2 := acc * 16 + d
      if acc2 > 65535 then none else parseHexNat rest acc2

/-- Embedding of Rust `u16::from_str_radix(s, 16)`: the empty string fails, a
single leading `+` is stripped (a bare `+` fails), a leading `-` on the
unsigned type is not a valid digit and fails, and the digits are accumulated
with overflow checking. `none` stands for a `ParseIntError`. -/
def u16FromStrRadix16 (s : Str) : Option Nat :=
  match s with
  | [] => none
  | c :: rest =>
    let digits := if c = '+' then rest else s
    match digits with
    | [] => none
    | _ :: _ => parseHexNat digits 0

/-- The probe selector filter of session.rs: optional (vendor id, product id)
pair and optional serial string. -/
structure ProbeFilter where
  vid_pid : Option (Nat × Nat)
  serial : Option Str
deriving DecidableEq, Repr

/-- Parse failures of `ProbeFilter::from_str`.  The spec calls this failure
class `InvalidFilterFormat`; the source produces an `anyhow::Error` either by
propagating the `ParseIntError` of `u16::from_str_radix` with `?`
(`invalidHex`) or by the explicit `anyhow!("invalid probe filter")` on a bad
number of parts (`invalidArity`). -/
inductive InvalidFilterFormat
  | invalidHex
  | invalidArity
deriving DecidableEq, Repr

/-- The `match *parts` arms of `ProbeFilter::from_str` (session.rs): one part is
a serial, two parts are hex vid/pid, three parts are hex vid/pid plus serial,
anything else is the "invalid probe filter" error.  The vid part is parsed
before the pid part, as the source's left-to-right `?` operators do. -/
def parseParts : List Str → Except InvalidFilterFormat ProbeFilter
  | [serial] => .ok ⟨none, some serial⟩
  | [vid, pid] =>
    match u16FromStrRadix16 vid with
    | none => .error .invalidHex
    | some v =>
      match u16FromStrRadix16 pid with
      | none => .error .invalidHex
      | some p => .ok ⟨some (v, p), none⟩
  | [vid, pid, serial] =>
    match u16FromStrRadix16 vid with
    | none => .error .invalidHex
    | some v =>
      match u16FromStrRadix16 pid with
      | none => .error .invalidHex
      | some p => .ok ⟨some (v, p), some serial⟩
  | _ => .error .invalidArity

/-- Embedding of `ProbeFilter::from_str`: split the selector on colons and
dispatch on the number of parts. -/
def probeFilterFromStr (s : Str) : Except InvalidFilterFormat ProbeFilter :=
  parseParts (splitColon s)

/-- The fields of `probe_rs::DebugProbeInfo` consulted by session.rs: vendor
id, product id and optional serial number (the human-readable identifier is
never inspected by this repository and is omitted). -/
structure DebugProbeInfo where
  vendor_id : Nat
  product_id : Nat
  serial_number : Option Str
deriving DecidableEq, Repr

/-- The closure of `filter` in session.rs: a probe is kept unless the
selector's `vid_pid` is set and differs from the probe's, or the selector's
`serial` is set and differs from the probe's (an absent probe serial never
equals a required one).  Short-circuit `&&` mirrors the early `return false`
paths. -/
def probeMatches (selector : ProbeFilter) (probe : DebugProbeInfo) : Bool :=
  (match selector.vid_pid with
   | some (vid, pid) => !(probe.vendor_id != vid || probe.product_id != pid)
   | none => true) &&
  (match selector.serial with
   | some serial => probe.serial_number == some serial
   | none => true)

/-- Embedding of `filter` in session.rs: `iter().filter(..).cloned().collect()`
over the probe list. -/
def filterProbes (probes : List DebugProbeInfo) (selector : ProbeFilter) :
    List DebugProbeInfo :=
  probes.filter (fun probe => probeMatches selector probe)

/-- The candidate-set computation at the top of `open` (session.rs): with a
`--probe` option the selector is parsed (propagating its failure with `?`) and
the enumeration filtered; without one the full enumeration is used. -/
def candidateProbes (allProbes : List DebugProbeInfo) (probeOpt : Option Str) :
    Except InvalidFilterFormat (List DebugProbeInfo) :=
  match probeOpt with
  | some probe_opt =>
    match probeFilterFromStr probe_opt with
    | .error e => .error e
    | .ok selector => .ok (filterProbes allProbes selector)
  | none => .ok allProbes

/-- The per-candidate lines printed by `print` (session.rs): one
`[{num}]: {link:?}` line per probe, indexed by `enumerate`.  The header line
(and the error message of the empty case, unreachable from `open`) carry no
candidate and are not modelled as entries. -/
def printEntries (probes : List DebugProbeInfo) : List (Nat × DebugProbeInfo) :=
  probes.enum

/-- An opened probe handle (`probe_rs::Probe`): the info it was opened from and
the clock speed last applied to it, if any. -/
structure Probe where
  info : DebugProbeInfo
  speedKHz : Option Nat
deriving DecidableEq, Repr

/-- Failure modes of `open` (session.rs).  `invalidFilter` propagates the
selector parse failure; `noProbeFound` and `ambiguousProbe` are the two
`bail!` calls; `probeOpenError` and `speedSetError` propagate the `?` failures
of `DebugProbeInfo::open` and `Probe::set_speed`. -/
inductive OpenError
  | invalidFilter (e : InvalidFilterFormat)
  | noProbeFound
  | ambiguousProbe
  | probeOpenError
  | speedSetError
deriving DecidableEq, Repr

/-- Embedding of `open` (session.rs).  `openHW` and `setSpeedHW` are oracles
for the external `DebugProbeInfo::open` and `Probe::set_speed` effects.  The
second component of the result is the list of candidate lines printed before
the ambiguous-probe failure (empty on every other path). -/
def openProbe (allProbes : List DebugProbeInfo) (probeOpt : Option Str)
    (speedOpt : Option Nat)
    (openHW : DebugProbeInfo → Except Unit Probe)
    (setSpeedHW : Probe → Nat → Except Unit Probe) :
    Except OpenError Probe × List (Nat × DebugProbeInfo) :=
  match candidateProbes allProbes probeOpt with
  | .error e => (.error (.invalidFilter e), [])
  | .ok filtered_probes =>
    if filtered_probes.isEmpty then (.error .noProbeFound, [])
    else if filtered_probes.length > 1 then
      (.error .ambiguousProbe, printEntries filtered_probes)
    else
      match filtered_probes with
      | [] => (.error .noProbeFound, [])
      | probe0 :: _ =>
        match openHW probe0 with
        | .error _ => (.error .probeOpenError, [])
        | .ok probe =>
          match speedOpt with
          | none => (.ok probe, [])
          | some speed =>
            match setSpeedHW probe speed with
            | .error _ => (.error .speedSetError, [])
            | .ok probe2 => (.ok probe2, [])

/-- An attached session (`probe_rs::Session`); its contents are irrelevant to
the modelled control flow. -/
inductive Session
  | mk
deriving DecidableEq, Repr

/-- Structural classification of a probe-specific error.  The source library
keeps the concrete error type private (the FIXME in session.rs notes this), so
the category is carried here alongside the rendered message to let statements
about "the underlying category" be made; the code itself can only look at
`message`. -/
inductive ErrorCategory
  | JtagNoDeviceConnected
  | OtherCategory
deriving DecidableEq, Repr

/-- A probe-specific transport error: its structural category and what
`e.to_string()` renders. -/
structure ProbeSpecificError where
  category : ErrorCategory
  message : Str
deriving DecidableEq, Repr

/-- The `probe_rs::DebugProbeError` variants distinguished by session.rs. -/
inductive DebugProbeError
  | ProbeSpecific (e : ProbeSpecificError)
  | OtherDebugProbeError
deriving DecidableEq, Repr

/-- The `probe_rs::Error` variants distinguished by session.rs. -/
inductive ProbeRsError
  | Probe (e : DebugProbeError)
  | OtherError
deriving DecidableEq, Repr

/-- Whether a list starts with the given pattern (both over characters). -/
def listStartsWith : Str → Str → Bool
  | _, [] => true
  | [], _ :: _ => false
  | a :: as, b :: bs => a == b && listStartsWith as bs

/-- Embedding of Rust `str::contains(pat)`: some position of `s` starts with
`pat`. -/
def containsSub (pat : Str) : Str → Bool
  | [] => listStartsWith [] pat
  | c :: rest => listStartsWith (c :: rest) pat || containsSub pat rest

/-- The token the source greps the rendered attach error for. -/
def jtagToken : Str := "JtagNoDeviceConnected".toList

/-- Embedding of the attach portion of `attach_to_probe` (session.rs); the
probe-opening step it begins with is modelled separately as `openProbe`, and
the two attach strategies on the already-opened probe are oracle outcomes.
Returns the propagated attach result and whether the advisory
connect-under-reset diagnostic was printed.  The diagnostic fires exactly when
the normal-attach result is a probe-specific error whose rendered message
contains `jtagToken` — the source's `to_string().contains(..)` workaround. -/
def attach_to_probe (connect_under_reset : Bool)
    (attachUnderResetOutcome attachOutcome : Except ProbeRsError Session) :
    Except ProbeRsError Session × Bool :=
  if connect_under_reset then (attachUnderResetOutcome, false)
  else
    let diag :=
      match attachOutcome with
      | .error (.Probe (.ProbeSpecific e)) => containsSub jtagToken e.message
      | _ => false
    (attachOutcome, diag)

/-- The RTT control block after `Rtt::attach` (main.rs): the channels found in
each direction, indexed by channel number; channel descriptors are abstracted
to numeric handles. -/
structure Rtt where
  downChannels : List Nat
  upChannels : List Nat
deriving DecidableEq, Repr

/-- The fatal setup failure of the channel binding in main.rs: an `unwrap` on a
missing channel 0, which the spec names `ChannelUnavailable`. -/
inductive BindError
  | ChannelUnavailable
deriving DecidableEq, Repr

/-- Embedding of the two channel bindings in main.rs:
`rtt.down_channels().take(0).unwrap()` then `rtt.up_channels().take(0).unwrap()`
— the `unwrap` panic on a missing channel is modelled as the fatal
`ChannelUnavailable` error. -/
def bindChannels (rtt : Rtt) : Except BindError (Nat × Nat) :=
  match rtt.downChannels[0]? with
  | none => .error .ChannelUnavailable
  | some down_channel =>
    match rtt.upChannels[0]? with
    | none => .error .ChannelUnavailable
    | some up_channel => .ok (down_channel, up_channel)

/-- The kinds of a crossterm key event distinguished by `read_char`. -/
inductive KeyEventKind
  | Press
  | Repeat
  | Release
deriving DecidableEq, Repr

/-- The crossterm key codes distinguished by `read_char`: a character key,
Enter and Tab each get their own arm; everything else (Escape, function keys,
navigation keys, bare modifiers, ...) falls to the `_` arm. -/
inductive KeyCode
  | Char (c : Char)
  | Enter
  | Tab
  | Esc
  | F (n : Nat)
  | Backspace
  | Left
  | Right
  | Up
  | Down
  | Modifier
deriving DecidableEq, Repr

/-- A crossterm key event; the `modifiers` and `state` fields the source
ignores with `..` are omitted. -/
structure KeyEvent where
  code : KeyCode
  kind : KeyEventKind
deriving DecidableEq, Repr

/-- The crossterm events distinguished by `read_char`: key events get the
nested match, every other event kind falls to the `_` arm. -/
inductive Event
  | Key (e : KeyEvent)
  | OtherEvent
deriving DecidableEq, Repr

/-- Embedding of Rust `char::as_ascii` composed with `ascii::Char::as_u8`
(main.rs): the character's own code point when it is ASCII, nothing
otherwise. -/
def char_as_ascii (c : Char) : Option Nat :=
  if c.toNat ≤ 0x7F then some c.toNat else none

/-- The inner `match code` of `read_char` (main.rs): a character key maps via
`as_ascii`, Enter to line feed 0x0A, Tab to horizontal tab 0x09, anything else
to no byte. -/
def decodeKeyCode : KeyCode → Option Nat
  | .Char c => char_as_ascii c
  | .Enter => some 0x0A
  | .Tab => some 0x09
  | _ => none

/-- The outer `match` of `read_char` (main.rs): only a key event whose kind is
`Press` reaches `decodeKeyCode`; every other event yields no byte. -/
def decodeEvent : Event → Option Nat
  | .Key ⟨code, .Press⟩ => decodeKeyCode code
  | _ => none

/-- The poll timeout of `read_char` (main.rs): `Duration::from_millis(1)`. -/
def pollTimeoutMillis : Nat := 1

/-- Errors that abort the bridge loop: each fallible step of a tick. -/
inductive LoopError
  | pollError
  | eventReadError
  | writeError
  | readError
  | printError
deriving DecidableEq, Repr

/-- Embedding of `read_char` (main.rs) with its two fallible terminal calls as
oracle outcomes: a failed or negative poll short-circuits; otherwise the read
event is decoded. -/
def read_char_run (pollOutcome : Except LoopError Bool)
    (eventOutcome : Except LoopError Event) : Except LoopError (Option Nat) :=
  match pollOutcome with
  | .error e => .error e
  | .ok false => .ok none
  | .ok true =>
    match eventOutcome with
    | .error e => .error e
    | .ok ev => .ok (decodeEvent ev)

/-- Embedding of Rust `u8::as_ascii` followed by `Print(char)` (main.rs): the
character printed for an up-channel byte, if any — bytes at or above 0x80 are
dropped with no output. -/
def renderByte (b : Nat) : Option Char :=
  if b ≤ 0x7F then some (Char.ofNat b) else none

/-- Observable actions of one tick of the main loop, in the order they are
performed. -/
inductive Action
  | pollKey
  | downWrite (b : Nat)
  | upRead (r : Option Nat)
  | render (c : Char)
deriving DecidableEq, Repr

/-- The external outcomes one tick of the loop can observe: the key poll, the
event read, the down-channel write, the up-channel read (at most one byte,
since `buf` has length 1: `some b` is a count of 1 with byte `b`, `none` a
count of 0), and the terminal print. -/
structure TickInput where
  pollOutcome : Except LoopError Bool
  eventOutcome : Except LoopError Event
  writeOutcome : Except LoopError Unit
  readOutcome : Except LoopError (Option Nat)
  printOutcome : Except LoopError Unit
deriving Repr

/-- One iteration of the `loop` in `main` (main.rs): `read_char`, a
down-channel write of the single polled byte when there is one, one up-channel
read of at most one byte, and a render of the byte read when it is ASCII.
Returns the tick's action trace; any failing step aborts the tick (and the
loop) with its error. -/
def tick (inp : TickInput) : Except LoopError (List Action) :=
  match read_char_run inp.pollOutcome inp.eventOutcome with
  | .error e => .error e
  | .ok keyByte =>
    let writeStep : Except LoopError (List Action) :=
      match keyByte with
      | some b =>
        match inp.writeOutcome with
        | .error e => .error e
        | .ok _ => .ok [Action.downWrite b]
      | none => .ok []
    match writeStep with
    | .error e => .error e
    | .ok writeActs =>
      match inp.readOutcome with
      | .error e => .error e
      | .ok readRes =>
        let renderStep : Except LoopError (List Action) :=
          match readRes with
          | some b =>
            match renderByte b with
            | some c =>
              match inp.printOutcome with
              | .error e => .error e
              | .ok _ => .ok [Action.render c]
            | none => .ok []
          | none => .ok []
        match renderStep with
        | .error e => .error e
        | .ok renderActs =>
          .ok (Action.pollKey :: (writeActs ++ Action.upRead readRes :: renderActs))

/-- Runs the loop for the given sequence of tick inputs: the loop body has no
exit path of its own, so it either consumes every input or stops at the first
fatal error. -/
def runTicks : List TickInput → Except LoopError (List (List Action))
  | [] => .ok []
  | inp :: rest =>
    match tick inp with
    | .error e => .error e
    | .ok t =>
      match runTicks rest with
      | .error e => .error e
      | .ok ts => .ok (t :: ts)

theorem splitColon_ne_nil (s : Str) : splitColon s ≠ [] := by
  cases s with
  | nil => simp [splitColon]
  | cons c rest =>
    by_cases hc : c = ':'
    · simp [splitColon, hc]
    · cases hrest : splitColon rest with
      | nil => simp [splitColon, hc, hrest]
      | cons p ps => simp [splitColon, hc, hrest]

theorem splitColon_no_colon (s : Str) (h : ':' ∉ s) : splitColon s = [s] := by
  induction s with
  | nil => rfl
  | cons c rest ih =>
    have hc : ¬ c = ':' := fun hc => h (hc ▸ List.mem_cons_self c rest)
    have hrest : ':' ∉ rest := fun hm => h (List.mem_cons_of_mem c hm)
    simp [splitColon, hc, ih hrest]

/-- C2: for every enumerated probe list and every probe filter, the candidate
set computed by selection is exactly the sublist of probes satisfying the
filter's match predicate, and with no `--probe` option the candidate set is
the full enumeration unchanged. -/
theorem claim_C2_selection_is_filter :
    (∀ (probes : List DebugProbeInfo) (selector : ProbeFilter) (p : DebugProbeInfo),
      p ∈ filterProbes probes selector ↔ p ∈ probes ∧ probeMatches selector p = true) ∧
    (∀ probes : List DebugProbeInfo, candidateProbes probes none = .ok probes) := by
  constructor
  · intro probes selector p
    simp [filterProbes, List.mem_filter]
  · intro probes
    rfl

/-- C4: a probe matches a filter iff the filter's vid/pid constraint is absent
or equal to the probe's ids, and the filter's serial constraint is absent or
equal to the probe's (present) serial; a filter with no fields set matches
everything, and a probe without a serial never matches a filter that requires
one. -/
theorem claim_C4_matches_characterisation :
    (∀ (selector : ProbeFilter) (probe : DebugProbeInfo),
      probeMatches selector probe = true ↔
        ((selector.vid_pid = none ∨
          ∃ vid pid, selector.vid_pid = some (vid, pid) ∧
            probe.vendor_id = vid ∧ probe.product_id = pid) ∧
         (selector.serial = none ∨
          ∃ s, selector.serial = some s ∧ probe.serial_number = some s))) ∧
    (∀ probe : DebugProbeInfo, probeMatches ⟨none, none⟩ probe = true) ∧
    (∀ (vp : Option (Nat × Nat)) (s : Str) (vid pid : Nat),
      probeMatches ⟨vp, some s⟩ ⟨vid, pid, none⟩ = false) := by
  refine ⟨?_, ?_, ?_⟩
  · rintro ⟨vp, ser⟩ probe
    rcases vp with _ | ⟨vid, pid⟩ <;> rcases ser with _ | s <;>
      simp [probeMatches] <;> tauto
  · intro probe
    rfl
  · intro vp s vid pid
    rcases vp with _ | ⟨v, p⟩ <;> simp [probeMatches]

/-- C3: one selector part parses to a serial-only filter, two parts to hex
vid/pid only, three parts to hex vid/pid plus serial; a non-hexadecimal
vid/pid part or any other number of parts fails with the spec's
`InvalidFilterFormat` class, together with the spec's concrete examples. -/
theorem claim_C3_selector_parse :
    (∀ a : Str, parseParts [a] = .ok ⟨none, some a⟩) ∧
    (∀ v p hv hp, u16FromStrRadix16 v = some hv → u16FromStrRadix16 p = some hp →
      parseParts [v, p] = .ok ⟨some (hv, hp), none⟩) ∧
    (∀ v p : Str, u16FromStrRadix16 v = none ∨ u16FromStrRadix16 p = none →
      parseParts [v, p] = .error .invalidHex) ∧
    (∀ v p a hv hp, u16FromStrRadix16 v = some hv → u16FromStrRadix16 p = some hp →
      parseParts [v, p, a] = .ok ⟨some (hv, hp), some a⟩) ∧
    (∀ v p a : Str, u16FromStrRadix16 v = none ∨ u16FromStrRadix16 p = none →
      parseParts [v, p, a] = .error .invalidHex) ∧
    (∀ parts : List Str, parts = [] ∨ 4 ≤ parts.length →
      parseParts parts = .error .invalidArity) ∧
    probeFilterFromStr "1a2b:3c4d".toList = .ok ⟨some (0x1a2b, 0x3c4d), none⟩ ∧
    probeFilterFromStr "SER123".toList = .ok ⟨none, some "SER123".toList⟩ ∧
    probeFilterFromStr "1a2b:3c4d:SER123".toList
      = .ok ⟨some (0x1a2b, 0x3c4d), some "SER123".toList⟩ ∧
    probeFilterFromStr "a:b:c:d".toList = .error .invalidArity ∧
    probeFilterFromStr "zz:yy".toList = .error .invalidHex := by
  refine ⟨fun a => rfl, ?_, ?_, ?_, ?_, ?_, rfl, rfl, rfl, rfl, rfl⟩
  · intro v p hv hp h1 h2
    simp [parseParts, h1, h2]
  · rintro v p (h | h)
    · simp [parseParts, h]
    · cases hv : u16FromStrRadix16 v <;> simp [parseParts, hv, h]
  · intro v p a hv hp h1 h2
    simp [parseParts, h1, h2]
  · rintro v p a (h | h)
    · simp [parseParts, h]
    · cases hv : u16FromStrRadix16 v <;> simp [parseParts, hv, h]
  · rintro parts (rfl | hlen)
    · rfl
    · rcases parts with _ | ⟨a, _ | ⟨b, _ | ⟨c, _ | ⟨d, rest⟩⟩⟩⟩ <;>
        first
          | rfl
          | (exfalso; simp at hlen)

/-- Witness for C3: the two-part branch at the spec's own example input. -/
theorem claim_C3_selector_parse_witness :
    parseParts ["1a2b".toList, "3c4d".toList] = .ok ⟨some (0x1a2b, 0x3c4d), none⟩ :=
  claim_C3_selector_parse.2.1 _ _ _ _ rfl rfl

/-- C10: a selector with no colon always parses, to a serial-only filter whose
serial is the exact input (even when empty or non-hexadecimal), and any parse
failure requires at least two colon-separated parts. -/
theorem claim_C10_single_part_never_fails :
    (∀ s : Str, ':' ∉ s → probeFilterFromStr s = .ok ⟨none, some s⟩) ∧
    (∀ (s : Str) (e : InvalidFilterFormat), probeFilterFromStr s = .error e →
      2 ≤ (splitColon s).length) := by
  constructor
  · intro s h
    rw [probeFilterFromStr, splitColon_no_colon s h]
    rfl
  · intro s e h
    rw [probeFilterFromStr] at h
    rcases hs : splitColon s with _ | ⟨a, _ | ⟨b, rest⟩⟩
    · exact absurd hs (splitColon_ne_nil s)
    · rw [hs] at h
      simp [parseParts] at h
    · simp

/-- Witness for C10: the non-hexadecimal colon-free selector "zz" parses to a
serial-only filter. -/
theorem claim_C10_single_part_never_fails_witness :
    probeFilterFromStr "zz".toList = .ok ⟨none, some "zz".toList⟩ :=
  claim_C10_single_part_never_fails.1 _ (by decide)

/-- C5: with an empty candidate set selection fails with `NoProbeFound` (for
any filter); with more than one candidate it fails with `AmbiguousProbe` after
printing one indexed line per candidate; only with exactly one candidate does
it open that probe — applying the speed option when one was supplied — and
success is only possible from a singleton candidate set. -/
theorem claim_C5_selection_outcomes
    (allProbes : List DebugProbeInfo) (probeOpt : Option Str) (speedOpt : Option Nat)
    (openHW : DebugProbeInfo → Except Unit Probe)
    (setSpeedHW : Probe → Nat → Except Unit Probe)
    (filtered : List DebugProbeInfo)
    (hcand : candidateProbes allProbes probeOpt = .ok filtered) :
    (filtered = [] →
      openProbe allProbes probeOpt speedOpt openHW setSpeedHW
        = (.error .noProbeFound, [])) ∧
    (1 < filtered.length →
      (openProbe allProbes probeOpt speedOpt openHW setSpeedHW).1
          = .error .ambiguousProbe ∧
      (openProbe allProbes probeOpt speedOpt openHW setSpeedHW).2.length
          = filtered.length) ∧
    (∀ p, filtered = [p] →
      (openProbe allProbes probeOpt speedOpt openHW setSpeedHW).2 = [] ∧
      (openHW p = .error () →
        (openProbe allProbes probeOpt speedOpt openHW setSpeedHW).1
          = .error .probeOpenError) ∧
      (∀ probe, openHW p = .ok probe → speedOpt = none →
        (openProbe allProbes probeOpt speedOpt openHW setSpeedHW).1 = .ok probe) ∧
      (∀ probe speed, openHW p = .ok probe → speedOpt = some speed →
        setSpeedHW probe speed = .error () →
        (openProbe allProbes probeOpt speedOpt openHW setSpeedHW).1
          = .error .speedSetError) ∧
      (∀ probe speed probe2, openHW p = .ok probe → speedOpt = some speed →
        setSpeedHW probe speed = .ok probe2 →
        (openProbe allProbes probeOpt speedOpt openHW setSpeedHW).1 = .ok probe2)) ∧
    (∀ q, (openProbe allProbes probeOpt speedOpt openHW setSpeedHW).1 = .ok q →
      ∃ p, filtered = [p]) := by
  refine ⟨?_, ?_, ?_, ?_⟩
  · rintro rfl
    simp [openProbe, hcand]
  · intro hlen
    have h1 : filtered.isEmpty = false := by
      cases filtered with
      | nil => simp at hlen
      | cons a t => rfl
    have h2 : filtered.length > 1 := hlen
    constructor <;> simp [openProbe, hcand, h1, h2, printEntries]
  · rintro p rfl
    refine ⟨?_, ?_, ?_, ?_, ?_⟩
    · cases hop : openHW p with
      | error q => simp [openProbe, hcand, hop]
      | ok probe =>
        cases speedOpt with
        | none => simp [openProbe, hcand, hop]
        | some speed =>
          cases hsp : setSpeedHW probe speed with
          | error q => simp [openProbe, hcand, hop, hsp]
          | ok probe2 => simp [openProbe, hcand, hop, hsp]
    · intro hop
      simp [openProbe, hcand, hop]
    · rintro probe hop rfl
      simp [openProbe, hcand, hop]
    · rintro probe speed hop rfl hsp
      simp [openProbe, hcand, hop, hsp]
    · rintro probe speed probe2 hop rfl hsp
      simp [openProbe, hcand, hop, hsp]
  · intro q hq
    rcases filtered with _ | ⟨p1, _ | ⟨p2, rest⟩⟩
    · simp [openProbe, hcand] at hq
    · exact ⟨p1, rfl⟩
    · have h2 : (p1 :: p2 :: rest).length > 1 := by simp
      simp [openProbe, hcand, h2] at hq

/-- Witness for C5: with two enumerated probes and no filter, selection fails
ambiguously and prints two candidate lines. -/
theorem claim_C5_selection_outcomes_witness :
    (openProbe [⟨1, 2, none⟩, ⟨3, 4, none⟩] none none
      (fun i => .ok ⟨i, none⟩) (fun pr _ => .ok pr)).1 = .error .ambiguousProbe ∧
    (openProbe [⟨1, 2, none⟩, ⟨3, 4, none⟩] none none
      (fun i => .ok ⟨i, none⟩) (fun pr _ => .ok pr)).2.length = 2 :=
  (claim_C5_selection_outcomes [⟨1, 2, none⟩, ⟨3, 4, none⟩] none none
    (fun i => .ok ⟨i, none⟩) (fun pr _ => .ok pr) [⟨1, 2, none⟩, ⟨3, 4, none⟩]
    rfl).2.1 (by decide)

/-- C6 counterexample: a normal attach failure whose structural category is
`JtagNoDeviceConnected` but whose rendered message does not happen to contain
the `JtagNoDeviceConnected` token gets no advisory diagnostic, because the
code classifies by string-matching the rendered message rather than by the
structural category the claim describes.  The error is still propagated
unchanged. -/
theorem claim_C6_counterexample :
    (attach_to_probe false (.ok .mk)
      (.error (.Probe (.ProbeSpecific
        ⟨.JtagNoDeviceConnected, "no target detected on the chain".toList⟩)))).2
      = false ∧
    (attach_to_probe false (.ok .mk)
      (.error (.Probe (.ProbeSpecific
        ⟨.JtagNoDeviceConnected, "no target detected on the chain".toList⟩)))).1
      = .error (.Probe (.ProbeSpecific
        ⟨.JtagNoDeviceConnected, "no target detected on the chain".toList⟩)) := by
  exact ⟨by decide, rfl⟩

/-- C6 (amended): the attach result is always propagated unchanged (the
diagnostic never alters it), and the advisory connect-under-reset diagnostic
is emitted exactly when the normal (non-under-reset) attach fails with a
probe-specific error whose rendered message contains the string
"JtagNoDeviceConnected" — a string-match on the opaque message, not a
structural category. -/
theorem claim_C6_amended_diagnostic
    (cur : Bool) (attachUnderResetOutcome attachOutcome : Except ProbeRsError Session) :
    (attach_to_probe cur attachUnderResetOutcome attachOutcome).1
      = (if cur then attachUnderResetOutcome else attachOutcome) ∧
    ((attach_to_probe cur attachUnderResetOutcome attachOutcome).2 = true ↔
      (cur = false ∧ ∃ e, attachOutcome = .error (.Probe (.ProbeSpecific e)) ∧
        containsSub jtagToken e.message = true)) := by
  cases cur with
  | true => exact ⟨rfl, by simp [attach_to_probe]⟩
  | false =>
    refine ⟨rfl, ?_⟩
    cases attachOutcome with
    | ok s => simp [attach_to_probe]
    | error err =>
      cases err with
      | OtherError => simp [attach_to_probe]
      | Probe dpe =>
        cases dpe with
        | OtherDebugProbeError => simp [attach_to_probe]
        | ProbeSpecific e => simp [attach_to_probe]

/-- C7: the 1 ms key poll yields no byte when nothing is pending; only
key-press events are decoded (repeat and release produce nothing); a printable
ASCII character maps to its own byte, Enter to 0x0A, Tab to 0x09; non-ASCII
characters, any other key, and non-key events produce no byte. -/
theorem claim_C7_key_mapping :
    pollTimeoutMillis = 1 ∧
    (∀ ev : Event, read_char_run (.ok false) (.ok ev) = .ok none) ∧
    (∀ code : KeyCode,
      read_char_run (.ok true) (.ok (.Key ⟨code, .Repeat⟩)) = .ok none ∧
      read_char_run (.ok true) (.ok (.Key ⟨code, .Release⟩)) = .ok none) ∧
    (∀ c : Char, 0x20 ≤ c.toNat → c.toNat ≤ 0x7E →
      read_char_run (.ok true) (.ok (.Key ⟨.Char c, .Press⟩)) = .ok (some c.toNat)) ∧
    (∀ c : Char, 0x7F < c.toNat →
      read_char_run (.ok true) (.ok (.Key ⟨.Char c, .Press⟩)) = .ok none) ∧
    read_char_run (.ok true) (.ok (.Key ⟨.Enter, .Press⟩)) = .ok (some 0x0A) ∧
    read_char_run (.ok true) (.ok (.Key ⟨.Tab, .Press⟩)) = .ok (some 0x09) ∧
    (∀ code : KeyCode, (∀ c, code ≠ .Char c) → code ≠ .Enter → code ≠ .Tab →
      read_char_run (.ok true) (.ok (.Key ⟨code, .Press⟩)) = .ok none) ∧
    read_char_run (.ok true) (.ok .OtherEvent) = .ok none := by
  refine ⟨rfl, fun ev => rfl, fun code => ⟨rfl, rfl⟩, ?_, ?_, rfl, rfl, ?_, rfl⟩
  · intro c h1 h2
    have hc : c.toNat ≤ 0x7F := by omega
    simp [read_char_run, decodeEvent, decodeKeyCode, char_as_ascii, hc]
  · intro c h
    have hc : ¬ c.toNat ≤ 0x7F := by omega
    simp [read_char_run, decodeEvent, decodeKeyCode, char_as_ascii, hc]
  · intro code h1 h2 h3
    cases code with
    | Char c => exact absurd rfl (h1 c)
    | Enter => exact absurd rfl h2
    | Tab => exact absurd rfl h3
    | Esc => rfl
    | F n => rfl
    | Backspace => rfl
    | Left => rfl
    | Right => rfl
    | Up => rfl
    | Down => rfl
    | Modifier => rfl

/-- Witness for C7: a pending press of the printable key 'a' yields its own
byte 0x61. -/
theorem claim_C7_key_mapping_witness :
    read_char_run (.ok true) (.ok (.Key ⟨.Char 'a', .Press⟩)) = .ok (some 0x61) :=
  claim_C7_key_mapping.2.2.2.1 'a' (by decide) (by decide)

/-- C8: an up-channel byte is rendered as its character exactly when it is
valid ASCII (at most 0x7F); every byte at or above 0x80 is dropped with no
output. -/
theorem claim_C8_render_ascii (b : Nat) (hb : b < 256) :
    (b ≤ 0x7F → renderByte b = some (Char.ofNat b)) ∧
    (0x80 ≤ b → renderByte b = none) := by
  constructor
  · intro h
    simp [renderByte, h]
  · intro h
    have hc : ¬ b ≤ 0x7F := by omega
    simp [renderByte, hc]

/-- Witness for C8: byte 0x41 renders as 'A'. -/
theorem claim_C8_render_ascii_witness :
    (0x41 ≤ 0x7F → renderByte 0x41 = some (Char.ofNat 0x41)) ∧
    (0x80 ≤ 0x41 → renderByte 0x41 = none) :=
  claim_C8_render_ascii 0x41 (by decide)

/-- C9: binding succeeds exactly when channel 0 exists in both directions, in
which case both index-0 channels are bound; a missing channel 0 in either
direction is the fatal `ChannelUnavailable` error, which is the only failure
mode of the binding. -/
theorem claim_C9_channel_binding :
    (∀ (rtt : Rtt) (d u : Nat),
      rtt.downChannels[0]? = some d → rtt.upChannels[0]? = some u →
      bindChannels rtt = .ok (d, u)) ∧
    (∀ rtt : Rtt, rtt.downChannels[0]? = none ∨ rtt.upChannels[0]? = none →
      bindChannels rtt = .error .ChannelUnavailable) ∧
    (∀ (rtt : Rtt) (e : BindError), bindChannels rtt = .error e →
      e = .ChannelUnavailable) := by
  refine ⟨?_, ?_, ?_⟩
  · intro rtt d u hd hu
    simp [bindChannels, hd, hu]
  · rintro rtt (hd | hu)
    · simp [bindChannels, hd]
    · cases hd : rtt.downChannels[0]? <;> simp [bindChannels, hd, hu]
  · intro rtt e _
    cases e
    rfl

/-- Witness for C9: an RTT control block with one channel each way binds both
index-0 channels. -/
theorem claim_C9_channel_binding_witness :
    bindChannels ⟨[10], [20]⟩ = .ok (10, 20) :=
  claim_C9_channel_binding.1 ⟨[10], [20]⟩ 10 20 rfl rfl

/-- C1: every successful tick's trace is the key poll, then at most one
down-channel write (one exactly when the poll produced a byte), then the
single up-channel read, then at most one render — so the terminal-to-target
transfer strictly precedes the target-to-terminal transfer, with one read
attempt per tick; and the loop either consumes every tick input or stops at
the first fatal error, having no other exit. -/
theorem claim_C1_tick_ordering :
    (∀ (inp : TickInput) (t : List Action), tick inp = .ok t →
      ∃ (w p : List Action) (r : Option Nat),
        t = Action.pollKey :: (w ++ Action.upRead r :: p) ∧
        w = (match read_char_run inp.pollOutcome inp.eventOutcome with
             | .ok (some b) => [Action.downWrite b]
             | _ => []) ∧
        inp.readOutcome = .ok r ∧
        (∀ a ∈ w, ∃ b, a = Action.downWrite b) ∧
        (∀ a ∈ p, ∃ c, a = Action.render c) ∧
        w.length ≤ 1 ∧ p.length ≤ 1) ∧
    (∀ inps : List TickInput,
      (∃ e, runTicks inps = .error e) ∨
      (∃ ts, runTicks inps = .ok ts ∧ ts.length = inps.length)) := by
  constructor
  · intro inp t h
    unfold tick at h
    cases hk : read_char_run inp.pollOutcome inp.eventOutcome with
    | error e =>
      simp [hk] at h
    | ok keyByte =>
      cases keyByte with
      | none =>
        cases hr : inp.readOutcome with
        | error e =>
          simp [hk, hr] at h
        | ok readRes =>
          cases readRes with
          | none =>
            simp [hk, hr] at h
            subst h
            exact ⟨[], [], none, rfl, rfl, rfl, by simp, by simp, by simp, by simp⟩
          | some rb =>
            cases hrb : renderByte rb with
            | none =>
              simp [hk, hr, hrb] at h
              subst h
              exact ⟨[], [], some rb, rfl, rfl, rfl, by simp, by simp,
                by simp, by simp⟩
            | some c =>
              cases hp : inp.printOutcome with
              | error e =>
                simp [hk, hr, hrb, hp] at h
              | ok u =>
                simp [hk, hr, hrb, hp] at h
                subst h
                exact ⟨[], [.render c], some rb, rfl, rfl, rfl, by simp,
                  by simp, by simp, by simp⟩
      | some b =>
        cases hw : inp.writeOutcome with
        | error e =>
          simp [hk, hw] at h
        | ok u =>
          cases hr : inp.readOutcome with
          | error e =>
            simp [hk, hw, hr] at h
          | ok readRes =>
            cases readRes with
            | none =>
              simp [hk, hw, hr] at h
              subst h
              exact ⟨[.downWrite b], [], none, rfl, rfl, rfl, by simp,
                by simp, by simp, by simp⟩
            | some rb =>
              cases hrb : renderByte rb with
              | none =>
                simp [hk, hw, hr, hrb] at h
                subst h
                exact ⟨[.downWrite b], [], some rb, rfl, rfl, rfl, by simp,
                  by simp, by simp, by simp⟩
              | some c =>
                cases hp : inp.printOutcome with
                | error e =>
                  simp [hk, hw, hr, hrb, hp] at h
                | ok v =>
                  simp [hk, hw, hr, hrb, hp] at h
                  subst h
                  exact ⟨[.downWrite b], [.render c], some rb, rfl, rfl, rfl,
                    by simp, by simp, by simp, by simp⟩
  · intro inps
    induction inps with
    | nil => exact Or.inr ⟨[], rfl, rfl⟩
    | cons inp rest ih =>
      cases ht : tick inp with
      | error e => exact Or.inl ⟨e, by simp [runTicks, ht]⟩
      | ok t =>
        rcases ih with ⟨e, he⟩ | ⟨ts, hts, hlen⟩
        · exact Or.inl ⟨e, by simp [runTicks, ht, he]⟩
        · exact Or.inr ⟨t :: ts, by simp [runTicks, ht, hts], by simp [hlen]⟩

/-- Witness for C1: a tick that polls 'h' (byte 0x68) and reads byte 0x69 from
the up channel produces the trace poll, write, read, render in that order. -/
theorem claim_C1_tick_ordering_witness :
    ∃ (w p : List Action) (r : Option Nat),
      [Action.pollKey, Action.downWrite 104, Action.upRead (some 105),
        Action.render 'i']
        = Action.pollKey :: (w ++ Action.upRead r :: p) ∧
      w = (match read_char_run (.ok true) (.ok (.Key ⟨.Char 'h', .Press⟩)) with
           | .ok (some b) => [Action.downWrite b]
           | _ => []) ∧
      (Except.ok (some 105) : Except LoopError (Option Nat)) = .ok r ∧
      (∀ a ∈ w, ∃ b, a = Action.downWrite b) ∧
      (∀ a ∈ p, ∃ c, a = Action.render c) ∧
      w.length ≤ 1 ∧ p.length ≤ 1 :=
  claim_C1_tick_ordering.1
    ⟨.ok true, .ok (.Key ⟨.Char 'h', .Press⟩), .ok (), .ok (some 105), .ok ()⟩
    _ rfl

end RttConsole
